import Mathlib

/-!
# ddns-route53: the update cycle of `internal/app/ddnsr53.go`

A shallow embedding of `Client.Run` and `Client.Start`.  The external
collaborators (the ident.me resolver, the Route53 client, the cron library,
the clock) are inputs of the model: what they return in one cycle is a
`World`.  Every call the code makes to them, and every log line, is recorded
in order as an `Event`.
-/

namespace DdnsRoute53

/-! ## Addresses (Go `net.IP`) -/

/-- Go `net.IP` is a byte slice; `nil` is the nil slice, distinct from an
empty non-nil slice `bytes []`. -/
inductive IP where
  | nil : IP
  | bytes (b : List Nat) : IP
  deriving DecidableEq, Repr

/-- The bytes of the slice (`nil` has none). -/
def IP.toList : IP → List Nat
  | .nil => []
  | .bytes b => b

/-- Go `len(ip)`. -/
def IP.len (ip : IP) : Nat := ip.toList.length

/-- Go `net.IPv4len`. -/
def IPv4len : Nat := 4

/-- Go `net.IPv6len`. -/
def IPv6len : Nat := 16

/-- Go `v4InV6Prefix`: the twelve leading bytes of an IPv4-mapped address. -/
def v4InV6Prefix : List Nat := [0, 0, 0, 0, 0, 0, 0, 0, 0, 0, 0xff, 0xff]

/-- Go `net.IP.Equal`: slices of equal length are compared bytewise (so
`nil.Equal(nil)` is true); a 4-byte address equals its 16-byte IPv4-mapped
form; anything else is unequal. -/
def IP.Equal (ip x : IP) : Bool :=
  if ip.len = x.len then
    ip.toList == x.toList
  else if ip.len = IPv4len ∧ x.len = IPv6len then
    (x.toList.take 12 == v4InV6Prefix) && (ip.toList == x.toList.drop 12)
  else if ip.len = IPv6len ∧ x.len = IPv4len then
    (ip.toList.take 12 == v4InV6Prefix) && (ip.toList.drop 12 == x.toList)
  else
    false

/-! ## Configuration and client state -/

/-- Go `route53.RRTypeA`. -/
def RRTypeA : String := "A"

/-- Go `route53.RRTypeAaaa`. -/
def RRTypeAaaa : String := "AAAA"

/-- Modelled from the spec: the record entry type of `internal/config` is not
among the sources; the fields are those `Run` reads (`rs.Name`, `rs.Type`,
`rs.TTL`), with the Go types their uses impose (`string`, `string`, `int64`).
The field `Type` is spelled `RRType` here, `Type` being reserved. -/
structure RecordSet where
  Name : String
  RRType : String
  TTL : Int
  deriving DecidableEq, Repr

/-- Modelled from the spec: `config.Configuration` is not among the sources;
the fields are those `Client` reads: `App.Name`, `App.Version`,
`Route53.HostedZoneID`, `Route53.RecordsSet`, `Route53.HandleIPv4`,
`Route53.HandleIPv6` and `Cli.Schedule`. -/
structure Configuration where
  AppName : String
  AppVersion : String
  HostedZoneID : String
  RecordsSet : List RecordSet
  HandleIPv4 : Bool
  HandleIPv6 : Bool
  Schedule : String
  deriving DecidableEq, Repr

/-- The mutable and configured part of Go `Client`: `cfg`, `jobID`,
`lastIPv4`, `lastIPv6` and the busy flag `locker`.  The handles `loc`, `cron`,
`r53` and `im` are the external collaborators. -/
structure Client where
  cfg : Configuration
  jobID : Int
  lastIPv4 : IP
  lastIPv6 : IP
  locker : Nat
  deriving DecidableEq, Repr

/-- One element of `r53Changes` that is not nil: a `route53.Change` with its
single resource record. -/
structure Change where
  Action : String
  Name : String
  RRType : String
  TTL : Int
  Value : String
  deriving DecidableEq, Repr

/-- Log levels of zerolog used by the client. -/
inductive Level where
  | info | warn | error
  deriving DecidableEq, Repr

/-- What the cycle does to the outside, in order.  `changes` is the Go slice
`[]*route53.Change`: `none` is a nil pointer. -/
inductive Event where
  | log (level : Level) (msg : String) : Event
  | IPv4 : Event
  | IPv6 : Event
  | ChangeResourceRecordSets (hostedZoneId comment : String)
      (changes : List (Option Change)) : Event
  deriving DecidableEq, Repr

/-- What the collaborators answer during one cycle: the `(net.IP, error)`
pairs of `c.im.IPv4()` and `c.im.IPv6()`, the error of
`c.r53.ChangeResourceRecordSets`, the formatted clock reading used in the
batch comment, and the two texts of the next-run log line. -/
structure World where
  ipv4 : IP × Option String
  ipv6 : IP × Option String
  r53err : Option String
  now : String
  nextIn : String
  nextAt : String

/-! ## `Client.Run` -/

/-- Lines 106-114, the value: `wanIPv4` after the resolution block.  The
variable keeps whatever address the resolver returned, also next to an
error; it stays nil when the family is not handled. -/
def wanIPv4 (c : Client) (w : World) : IP :=
  if c.cfg.HandleIPv4 then w.ipv4.1 else IP.nil

/-- Lines 116-124, the value: `wanIPv6` after the resolution block. -/
def wanIPv6 (c : Client) (w : World) : IP :=
  if c.cfg.HandleIPv6 then w.ipv6.1 else IP.nil

/-- Lines 106-114, the effects: the resolver call and its log line. -/
def resolveIPv4 (str : IP → String) (c : Client) (w : World) : List Event :=
  if c.cfg.HandleIPv4 then
    [Event.IPv4,
     match w.ipv4.2 with
     | some _ => Event.log Level.error "Cannot retrieve WAN IPv4 address"
     | none => Event.log Level.info ("Current WAN IPv4: " ++ str w.ipv4.1)]
  else
    []

/-- Lines 116-124, the effects: the resolver call and its log line. -/
def resolveIPv6 (str : IP → String) (c : Client) (w : World) : List Event :=
  if c.cfg.HandleIPv6 then
    [Event.IPv6,
     match w.ipv6.2 with
     | some _ => Event.log Level.error "Cannot retrieve WAN IPv6 address"
     | none => Event.log Level.info ("Current WAN IPv6: " ++ str w.ipv6.1)]
  else
    []

/-- Lines 146-158: the change built for a record that is not skipped. -/
def mkChange (str : IP → String) (wanIPv4 wanIPv6 : IP) (rs : RecordSet) : Change :=
  { Action := "UPSERT"
    Name := rs.Name
    RRType := rs.RRType
    TTL := rs.TTL
    Value := if rs.RRType = RRTypeAaaa then str wanIPv6 else str wanIPv4 }

/-- One iteration of the loop of lines 138-159 on the pair (slice, log so
far): a skipped record leaves index `i` untouched, otherwise
`r53Changes[i]` is assigned. -/
def loopStep (str : IP → String) (wanIPv4 wanIPv6 : IP)
    (acc : List (Option Change) × List Event) (ir : Nat × RecordSet) :
    List (Option Change) × List Event :=
  if wanIPv4 = IP.nil ∧ ir.2.RRType = RRTypeA then
    (acc.1, acc.2 ++ [Event.log Level.error
      ("No WAN IPv4 address available to update " ++ ir.2.Name ++ " record")])
  else if wanIPv6 = IP.nil ∧ ir.2.RRType = RRTypeAaaa then
    (acc.1, acc.2 ++ [Event.log Level.error
      ("No WAN IPv6 address available to update " ++ ir.2.Name ++ " record")])
  else
    (acc.1.set ir.1 (some (mkChange str wanIPv4 wanIPv6 ir.2)), acc.2)

/-- Lines 137-159: `make([]*route53.Change, len(records))` followed by the
indexed loop. -/
def buildChanges (str : IP → String) (wanIPv4 wanIPv6 : IP)
    (records : List RecordSet) : List (Option Change) × List Event :=
  records.enum.foldl (loopStep str wanIPv4 wanIPv6)
    (List.replicate records.length none, [])

/-- What the loop of lines 138-159 leaves at the index of record `rs`: the
nil of `make` when the record is skipped, its change otherwise. -/
def entryOf (str : IP → String) (wanIPv4 wanIPv6 : IP) (rs : RecordSet) : Option Change :=
  if wanIPv4 = IP.nil ∧ rs.RRType = RRTypeA then none
  else if wanIPv6 = IP.nil ∧ rs.RRType = RRTypeAaaa then none
  else some (mkChange str wanIPv4 wanIPv6 rs)

/-- Lines 170-174: the batch comment. -/
def batchComment (c : Client) (w : World) : String :=
  "Updated by " ++ c.cfg.AppName ++ " " ++ c.cfg.AppVersion ++ " at " ++ w.now

/-- Lines 106-189: the body of `Run` between taking the guard and the
deferred calls. -/
def cycle (str : IP → String) (c : Client) (w : World) : Client × List Event :=
  let tr := resolveIPv4 str c w ++ resolveIPv6 str c w
  if wanIPv4 c w = IP.nil ∧ wanIPv6 c w = IP.nil then
    (c, tr)
  else if ((wanIPv4 c w).Equal c.lastIPv4 && (wanIPv6 c w).Equal c.lastIPv6) = true then
    (c, tr ++ [Event.log Level.info
      "WAN IPv4/IPv6 addresses have not changed since last update. Skipping..."])
  else
    let built := buildChanges str (wanIPv4 c w) (wanIPv6 c w) c.cfg.RecordsSet
    if built.1.length = 0 then
      (c, tr ++ built.2 ++
        [Event.log Level.warn "No Route53 record set to update. Skipping..."])
    else
      ({ c with lastIPv4 := wanIPv4 c w, lastIPv6 := wanIPv6 c w },
        tr ++ built.2 ++
        [Event.ChangeResourceRecordSets c.cfg.HostedZoneID (batchComment c w) built.1] ++
        (match w.r53err with
         | some _ => [Event.log Level.error "Cannot update records set"]
         | none => []) ++
        [Event.log Level.info
          (toString c.cfg.RecordsSet.length ++ " records set updated")])

/-- Lines 100-104: the deferred next-run log line, present when a job is
registered. -/
def nextRunLog (c : Client) (w : World) : List Event :=
  if c.jobID > 0 then
    [Event.log Level.info ("Next run in " ++ w.nextIn ++ " (" ++ w.nextAt ++ ")")]
  else
    []

/-- `Client.Run` executed without interference: the compare-and-swap of line
95, the body, then the deferred calls in reverse order (log line, store 0). -/
def Run (str : IP → String) (c : Client) (w : World) : Client × List Event :=
  if c.locker = 0 then
    let r := cycle str { c with locker := 1 } w
    ({ r.1 with locker := 0 }, r.2 ++ nextRunLog c w)
  else
    (c, [Event.log Level.warn "Already running"])

/-- A sequence of `Run` invocations one after the other (no overlap), one
`World` per invocation; the client state after the last one. -/
def runAll (str : IP → String) (c : Client) : List World → Client
  | [] => c
  | w :: ws => runAll str (Run str c w).1 ws

/-! ## Reading a trace -/

/-- Whether an event is a call of the DNS provider. -/
def Event.isProvider : Event → Bool
  | Event.ChangeResourceRecordSets _ _ _ => true
  | _ => false

/-- Whether an event is a call of the address resolver. -/
def Event.isResolver : Event → Bool
  | Event.IPv4 => true
  | Event.IPv6 => true
  | _ => false

/-- The provider calls of a trace, in order. -/
def providerCalls (tr : List Event) : List Event := tr.filter Event.isProvider

/-- The resolver calls of a trace, in order. -/
def resolverCalls (tr : List Event) : List Event := tr.filter Event.isResolver

/-! ## `Client.Start` -/

/-- What `Start` does, in order: a whole `Run` (with its own trace), the
calls to the cron library, and its log lines. -/
inductive StartEvent where
  | Run (trace : List Event) : StartEvent
  | AddJob (spec : String) : StartEvent
  | CronStart : StartEvent
  | log (level : Level) (msg : String) : StartEvent
  deriving DecidableEq, Repr

/-- How `Start` ends: it returns an error value (`none` is Go `nil`), or it
reaches `select {}` and never returns. -/
inductive Outcome where
  | returned (err : Option String) : Outcome
  | blocked : Outcome
  deriving DecidableEq, Repr

/-- What the cron library answers to `Start`: the `(EntryID, error)` pair of
`c.cron.AddJob` and the two texts of the next-run log line. -/
structure CronWorld where
  addJob : Int × Option String
  nextIn : String
  nextAt : String

/-- The result of `Start`: the client, the trace, and how it ended. -/
structure StartResult where
  client : Client
  trace : List StartEvent
  outcome : Outcome

/-- `Client.Start`, lines 65-90. -/
def Start (str : IP → String) (c : Client) (w : World) (cw : CronWorld) : StartResult :=
  let r := Run str c w
  if c.cfg.Schedule = "" then
    { client := r.1, trace := [StartEvent.Run r.2], outcome := Outcome.returned none }
  else
    let c1 : Client := { r.1 with jobID := cw.addJob.1 }
    match cw.addJob.2 with
    | some e =>
      { client := c1
        trace := [StartEvent.Run r.2, StartEvent.AddJob c.cfg.Schedule]
        outcome := Outcome.returned (some e) }
    | none =>
      { client := c1
        trace := [StartEvent.Run r.2, StartEvent.AddJob c.cfg.Schedule,
          StartEvent.log Level.info ("Cron initialized with schedule " ++ c.cfg.Schedule),
          StartEvent.CronStart,
          StartEvent.log Level.info ("Next run in " ++ cw.nextIn ++ " (" ++ cw.nextAt ++ ")")]
        outcome := Outcome.blocked }

/-- Whether an event of `Start` is a `Run`. -/
def StartEvent.isRun : StartEvent → Bool
  | StartEvent.Run _ => true
  | _ => false

/-! ## The busy guard under interleaving

Invocations of `Run` are numbered; `clientOf i` is the `Client` instance
invocation `i` is called on.  Only two statements of `Run` touch the guard:
the compare-and-swap of line 95 and the deferred store of line 99, both
atomic.  Everything between them leaves `locker` alone, so one scheduled step
of an invocation past the guard stands for the rest of its body up to and
including the store. -/

/-- Where an invocation stands: before line 95, past the guard, or returned. -/
inductive Pc where
  | waiting | inside | done
  deriving DecidableEq, Repr

/-- The guard-relevant state of the process: the `locker` field of every
client instance, and the position of every invocation. -/
structure Sys where
  locker : Nat → Nat
  pc : Nat → Pc

/-- Freshly constructed clients (`locker` is zero-valued by `New`) and no
invocation started. -/
def Sys.init : Sys :=
  { locker := fun _ => 0, pc := fun _ => Pc.waiting }

/-- One atomic step of invocation `i`: the compare-and-swap of line 95
(taking the guard, or returning at line 97), or the deferred store of line 99. -/
def step (clientOf : Nat → Nat) (s : Sys) (i : Nat) : Sys :=
  match s.pc i with
  | Pc.waiting =>
    if s.locker (clientOf i) = 0 then
      { locker := Function.update s.locker (clientOf i) 1
        pc := Function.update s.pc i Pc.inside }
    else
      { locker := s.locker, pc := Function.update s.pc i Pc.done }
  | Pc.inside =>
    { locker := Function.update s.locker (clientOf i) 0
      pc := Function.update s.pc i Pc.done }
  | Pc.done => s

/-- An interleaving: the invocations take their steps in the order of `sched`. -/
def exec (clientOf : Nat → Nat) (s : Sys) (sched : List Nat) : Sys :=
  sched.foldl (step clientOf) s

/-! ## Concrete data for the scenarios -/

/-- A textual form for the concrete runs: the bytes in decimal, joined by
dots (what Go prints for a 4-byte address).  The theorems hold for every
textual form `str`. -/
def dotted (ip : IP) : String :=
  ".".intercalate (ip.toList.map toString)

/-- The record `a.example.com A 300` of the scenarios. -/
def recA : RecordSet := { Name := "a.example.com", RRType := "A", TTL := 300 }

/-- An `AAAA` record for the same name. -/
def recAAAA : RecordSet := { Name := "a.example.com", RRType := "AAAA", TTL := 300 }

/-- The address 203.0.113.9 as a 4-byte slice. -/
def ip9 : IP := IP.bytes [203, 0, 113, 9]

/-- The address 203.0.113.9 as the 16-byte slice `net.ParseIP` returns. -/
def ip9long : IP := IP.bytes [0, 0, 0, 0, 0, 0, 0, 0, 0, 0, 255, 255, 203, 0, 113, 9]

/-- The address 203.0.113.10 as a 4-byte slice. -/
def ip10 : IP := IP.bytes [203, 0, 113, 10]

/-- A configuration with no schedule, for the given records and family flags. -/
def sampleCfg (records : List RecordSet) (h4 h6 : Bool) : Configuration :=
  { AppName := "ddns-route53", AppVersion := "1.0.0", HostedZoneID := "Z1",
    RecordsSet := records, HandleIPv4 := h4, HandleIPv6 := h6, Schedule := "" }

/-- A client with the guard free and the given last applied pair. -/
def sampleClient (cfg : Configuration) (last4 last6 : IP) : Client :=
  { cfg := cfg, jobID := 0, lastIPv4 := last4, lastIPv6 := last6, locker := 0 }

/-- A cycle in which the resolvers answer `v4` and `v6` and the provider
answers `err`. -/
def sampleWorld (v4 v6 : IP × Option String) (err : Option String) : World :=
  { ipv4 := v4, ipv6 := v6, r53err := err, now := "2020-01-01 00:00:00",
    nextIn := "1 hour", nextAt := "2020-01-01 01:00:00" }

/-- The guard invariant of a process state: an invocation past the guard
holds its client's `locker` at 1, and no two are past the guard of one
client. -/
def GuardInv (clientOf : Nat → Nat) (s : Sys) : Prop :=
  (∀ i, s.pc i = Pc.inside → s.locker (clientOf i) = 1) ∧
  (∀ i j, s.pc i = Pc.inside → s.pc j = Pc.inside → clientOf i = clientOf j → i = j)

/-! ## The loop building the changes -/

theorem foldl_loopStep_fst (str : IP → String) (v4 v6 : IP) (rs : List RecordSet) :
    ∀ (pre : List (Option Change)) (lg : List Event),
      ((rs.enumFrom pre.length).foldl (loopStep str v4 v6)
        (pre ++ List.replicate rs.length none, lg)).1
        = pre ++ rs.map (entryOf str v4 v6) := by
  induction rs with
  | nil => intro pre lg; simp
  | cons r rs ih =>
    intro pre lg
    have h1 := ih (pre ++ [none])
    have h2 := ih (pre ++ [some (mkChange str v4 v6 r)])
    simp only [List.length_append, List.length_singleton, List.append_assoc,
      List.singleton_append] at h1 h2
    simp only [List.enumFrom_cons, List.foldl_cons, List.length_cons, List.replicate_succ,
      List.map_cons, loopStep, entryOf]
    by_cases ha : v4 = IP.nil ∧ r.RRType = RRTypeA
    · simp only [if_pos ha]
      exact h1 _
    · by_cases hb : v6 = IP.nil ∧ r.RRType = RRTypeAaaa
      · simp only [if_neg ha, if_pos hb]
        exact h1 _
      · simp only [if_neg ha, if_neg hb]
        have hset : (pre ++ none :: List.replicate rs.length none).set pre.length
            (some (mkChange str v4 v6 r))
            = pre ++ some (mkChange str v4 v6 r) :: List.replicate rs.length none := by
          simp
        rw [hset]
        exact h2 _

theorem foldl_loopStep_filter (str : IP → String) (v4 v6 : IP) (p : Event → Bool)
    (hp : ∀ l m, p (Event.log l m) = false) (irs : List (Nat × RecordSet)) :
    ∀ (acc : List (Option Change) × List Event),
      (irs.foldl (loopStep str v4 v6) acc).2.filter p = acc.2.filter p := by
  induction irs with
  | nil => intro acc; rfl
  | cons ir irs ih =>
    intro acc
    rw [List.foldl_cons, ih]
    unfold loopStep
    split_ifs <;> simp [hp]

/-- The slice built by lines 137-159 has one slot per configured record, in
configuration order: nil for a skipped record, its change otherwise. -/
theorem buildChanges_fst (str : IP → String) (v4 v6 : IP) (records : List RecordSet) :
    (buildChanges str v4 v6 records).1 = records.map (entryOf str v4 v6) := by
  have h := foldl_loopStep_fst str v4 v6 records [] []
  simpa [buildChanges, List.enum] using h

theorem buildChanges_length (str : IP → String) (v4 v6 : IP) (records : List RecordSet) :
    (buildChanges str v4 v6 records).1.length = records.length := by
  rw [buildChanges_fst, List.length_map]

theorem buildChanges_provider (str : IP → String) (v4 v6 : IP) (records : List RecordSet) :
    providerCalls (buildChanges str v4 v6 records).2 = [] := by
  have h := foldl_loopStep_filter str v4 v6 Event.isProvider (fun _ _ => rfl)
    records.enum (List.replicate records.length none, [])
  simpa [buildChanges, providerCalls] using h

theorem buildChanges_resolver (str : IP → String) (v4 v6 : IP) (records : List RecordSet) :
    resolverCalls (buildChanges str v4 v6 records).2 = [] := by
  have h := foldl_loopStep_filter str v4 v6 Event.isResolver (fun _ _ => rfl)
    records.enum (List.replicate records.length none, [])
  simpa [buildChanges, resolverCalls] using h

/-! ## What one cycle does -/

theorem providerCalls_append (a b : List Event) :
    providerCalls (a ++ b) = providerCalls a ++ providerCalls b := by
  simp [providerCalls]

theorem resolverCalls_append (a b : List Event) :
    resolverCalls (a ++ b) = resolverCalls a ++ resolverCalls b := by
  simp [resolverCalls]

theorem providerCalls_nil : providerCalls [] = [] := rfl

theorem providerCalls_log (l : Level) (m : String) :
    providerCalls [Event.log l m] = [] := rfl

theorem providerCalls_submit (z cm : String) (ch : List (Option Change)) :
    providerCalls [Event.ChangeResourceRecordSets z cm ch]
      = [Event.ChangeResourceRecordSets z cm ch] := rfl

theorem resolveIPv4_provider (str : IP → String) (c : Client) (w : World) :
    providerCalls (resolveIPv4 str c w) = [] := by
  unfold resolveIPv4 providerCalls
  split_ifs
  · cases w.ipv4.2 <;> simp [Event.isProvider]
  · rfl

theorem resolveIPv6_provider (str : IP → String) (c : Client) (w : World) :
    providerCalls (resolveIPv6 str c w) = [] := by
  unfold resolveIPv6 providerCalls
  split_ifs
  · cases w.ipv6.2 <;> simp [Event.isProvider]
  · rfl

theorem nextRunLog_provider (c : Client) (w : World) :
    providerCalls (nextRunLog c w) = [] := by
  unfold nextRunLog providerCalls
  split_ifs <;> simp [Event.isProvider]

theorem nextRunLog_resolver (c : Client) (w : World) :
    resolverCalls (nextRunLog c w) = [] := by
  unfold nextRunLog resolverCalls
  split_ifs <;> simp [Event.isResolver]

/-- The provider calls of the body of `Run`: none on the three early
returns, otherwise the single batch holding the whole slice. -/
theorem providerCalls_cycle (str : IP → String) (c : Client) (w : World) :
    providerCalls (cycle str c w).2 =
      if wanIPv4 c w = IP.nil ∧ wanIPv6 c w = IP.nil then []
      else if ((wanIPv4 c w).Equal c.lastIPv4 && (wanIPv6 c w).Equal c.lastIPv6) = true then []
      else if c.cfg.RecordsSet = [] then []
      else [Event.ChangeResourceRecordSets c.cfg.HostedZoneID (batchComment c w)
        (c.cfg.RecordsSet.map (entryOf str (wanIPv4 c w) (wanIPv6 c w)))] := by
  unfold cycle
  simp only [buildChanges_length, List.length_eq_zero]
  cases w.r53err <;>
  split_ifs <;>
  simp only [providerCalls_append, resolveIPv4_provider, resolveIPv6_provider,
    buildChanges_provider, buildChanges_fst, providerCalls_log, providerCalls_submit,
    providerCalls_nil, List.nil_append, List.append_nil]

/-- The client state after the body of `Run`. -/
theorem cycle_fst (str : IP → String) (c : Client) (w : World) :
    (cycle str c w).1 =
      if wanIPv4 c w = IP.nil ∧ wanIPv6 c w = IP.nil then c
      else if ((wanIPv4 c w).Equal c.lastIPv4 && (wanIPv6 c w).Equal c.lastIPv6) = true then c
      else if c.cfg.RecordsSet = [] then c
      else { c with lastIPv4 := wanIPv4 c w, lastIPv6 := wanIPv6 c w } := by
  unfold cycle
  simp only [buildChanges_length, List.length_eq_zero]
  split_ifs <;> rfl

/-! ## What `Run` does -/

theorem IP.Equal_self (ip : IP) : ip.Equal ip = true := by
  simp [IP.Equal]

theorem Run_busy (str : IP → String) (c : Client) (w : World) (h : c.locker ≠ 0) :
    Run str c w = (c, [Event.log Level.warn "Already running"]) := by
  simp [Run, h]

theorem Run_free (str : IP → String) (c : Client) (w : World) (h : c.locker = 0) :
    Run str c w = ({ (cycle str { c with locker := 1 } w).1 with locker := 0 },
      (cycle str { c with locker := 1 } w).2 ++ nextRunLog c w) := by
  simp [Run, h]

theorem providerCalls_Run (str : IP → String) (c : Client) (w : World) (h : c.locker = 0) :
    providerCalls (Run str c w).2 =
      if wanIPv4 c w = IP.nil ∧ wanIPv6 c w = IP.nil then []
      else if ((wanIPv4 c w).Equal c.lastIPv4 && (wanIPv6 c w).Equal c.lastIPv6) = true then []
      else if c.cfg.RecordsSet = [] then []
      else [Event.ChangeResourceRecordSets c.cfg.HostedZoneID (batchComment c w)
        (c.cfg.RecordsSet.map (entryOf str (wanIPv4 c w) (wanIPv6 c w)))] := by
  have hc := providerCalls_cycle str { c with locker := 1 } w
  rw [Run_free str c w h]
  simp only [providerCalls_append, nextRunLog_provider, List.append_nil]
  exact hc

theorem Run_fst (str : IP → String) (c : Client) (w : World) (h : c.locker = 0) :
    (Run str c w).1 =
      if wanIPv4 c w = IP.nil ∧ wanIPv6 c w = IP.nil then c
      else if ((wanIPv4 c w).Equal c.lastIPv4 && (wanIPv6 c w).Equal c.lastIPv6) = true then c
      else if c.cfg.RecordsSet = [] then c
      else { c with lastIPv4 := wanIPv4 c w, lastIPv6 := wanIPv6 c w } := by
  have hc := cycle_fst str { c with locker := 1 } w
  rw [Run_free str c w h]
  simp only [hc]
  have e1 : wanIPv4 { c with locker := 1 } w = wanIPv4 c w := rfl
  have e2 : wanIPv6 { c with locker := 1 } w = wanIPv6 c w := rfl
  simp only [e1, e2]
  cases c with
  | mk cfg jobID l4 l6 lk =>
    simp only at h
    subst h
    split_ifs <;> rfl

theorem Run_provider_busy (str : IP → String) (c : Client) (w : World) (h : c.locker ≠ 0) :
    providerCalls (Run str c w).2 = [] := by
  rw [Run_busy str c w h]; rfl

theorem Run_cfg (str : IP → String) (c : Client) (w : World) :
    (Run str c w).1.cfg = c.cfg := by
  by_cases h : c.locker = 0
  · rw [Run_fst str c w h]; split_ifs <;> rfl
  · rw [Run_busy str c w h]

theorem Run_locker (str : IP → String) (c : Client) (w : World) (h : c.locker = 0) :
    (Run str c w).1.locker = 0 := by
  rw [Run_free str c w h]

theorem Run_submits_free (str : IP → String) (c : Client) (w : World)
    (h : providerCalls (Run str c w).2 ≠ []) : c.locker = 0 := by
  by_contra hb
  exact h (Run_provider_busy str c w hb)

theorem Run_submits_fst (str : IP → String) (c : Client) (w : World)
    (h : providerCalls (Run str c w).2 ≠ []) :
    (Run str c w).1 = { c with lastIPv4 := wanIPv4 c w, lastIPv6 := wanIPv6 c w } := by
  have hfree := Run_submits_free str c w h
  rw [providerCalls_Run str c w hfree] at h
  rw [Run_fst str c w hfree]
  split_ifs at h ⊢ <;> first | rfl | exact absurd rfl h

/-! ## The claims about `Run` -/

/-- C1: when a cycle has submitted to the provider with success, and the next
cycle resolves the same pair of addresses (component by component, nil
matching nil), the next `Run` makes no provider call. -/
theorem run_same_pair_no_provider_call (str : IP → String) (c : Client) (w1 w2 : World)
    (hsub : providerCalls (Run str c w1).2 ≠ [])
    (hok : w1.r53err = none)
    (h4 : wanIPv4 (Run str c w1).1 w2 = wanIPv4 c w1)
    (h6 : wanIPv6 (Run str c w1).1 w2 = wanIPv6 c w1) :
    providerCalls (Run str (Run str c w1).1 w2).2 = [] := by
  have _ := hok
  have hfree := Run_submits_free str c w1 hsub
  have hst := Run_submits_fst str c w1 hsub
  have hl : (Run str c w1).1.locker = 0 := Run_locker str c w1 hfree
  have hl4 : (Run str c w1).1.lastIPv4 = wanIPv4 c w1 := by rw [hst]
  have hl6 : (Run str c w1).1.lastIPv6 = wanIPv6 c w1 := by rw [hst]
  rw [providerCalls_Run str _ w2 hl, h4, h6, hl4, hl6]
  simp [IP.Equal_self]

/-- Witness of C1: the scenario of the spec, 203.0.113.9 resolved twice. -/
theorem run_same_pair_no_provider_call_witness :
    providerCalls (Run dotted
      (Run dotted (sampleClient (sampleCfg [recA] true false) IP.nil IP.nil)
        (sampleWorld (ip9, none) (IP.nil, none) none)).1
      (sampleWorld (ip9, none) (IP.nil, none) none)).2 = [] :=
  run_same_pair_no_provider_call dotted
    (sampleClient (sampleCfg [recA] true false) IP.nil IP.nil)
    (sampleWorld (ip9, none) (IP.nil, none) none)
    (sampleWorld (ip9, none) (IP.nil, none) none)
    (by decide) rfl (by decide) (by decide)

/-- C2, as amended: a `Run` entered with the guard free, whose resolved pair
is not nil in both components and is not `Equal` to the last applied pair in
both components, with at least one configured record, calls the provider
exactly once, with the whole slice in one batch. -/
theorem run_changed_pair_one_provider_call (str : IP → String) (c : Client) (w : World)
    (hfree : c.locker = 0)
    (hres : ¬ (wanIPv4 c w = IP.nil ∧ wanIPv6 c w = IP.nil))
    (hne : ¬ ((wanIPv4 c w).Equal c.lastIPv4 = true ∧ (wanIPv6 c w).Equal c.lastIPv6 = true))
    (hrec : c.cfg.RecordsSet ≠ []) :
    providerCalls (Run str c w).2 =
      [Event.ChangeResourceRecordSets c.cfg.HostedZoneID (batchComment c w)
        (c.cfg.RecordsSet.map (entryOf str (wanIPv4 c w) (wanIPv6 c w)))] := by
  rw [providerCalls_Run str c w hfree, if_neg hres, if_neg hrec]
  have hne2 : ¬ ((wanIPv4 c w).Equal c.lastIPv4 && (wanIPv6 c w).Equal c.lastIPv6) = true := by
    simpa [Bool.and_eq_true] using hne
  rw [if_neg hne2]

/-- Witness of C2 as amended: last applied 203.0.113.9, then 203.0.113.10 is
resolved. -/
theorem run_changed_pair_one_provider_call_witness :
    providerCalls (Run dotted (sampleClient (sampleCfg [recA] true false) ip9 IP.nil)
      (sampleWorld (ip10, none) (IP.nil, none) none)).2 =
      [Event.ChangeResourceRecordSets "Z1"
        (batchComment (sampleClient (sampleCfg [recA] true false) ip9 IP.nil)
          (sampleWorld (ip10, none) (IP.nil, none) none))
        [some (mkChange dotted ip10 IP.nil recA)]] :=
  run_changed_pair_one_provider_call dotted
    (sampleClient (sampleCfg [recA] true false) ip9 IP.nil)
    (sampleWorld (ip10, none) (IP.nil, none) none)
    rfl (by decide) (by decide) (by decide)

/-- Counterexample to C2 as stated: three runs entered with the guard free
whose resolved pair differs from the last applied pair and which call the
provider zero times: the new pair is nil in both components (line 126); the
record list is empty (line 162); the new IPv4 address is the 16-byte form of
the 4-byte address last applied (`Equal`, line 131). -/
theorem run_changed_pair_no_provider_call :
    ((sampleClient (sampleCfg [recA] true false) ip9 IP.nil).locker = 0
      ∧ (ip9, IP.nil) ≠ (wanIPv4 (sampleClient (sampleCfg [recA] true false) ip9 IP.nil)
            (sampleWorld (IP.nil, some "timeout") (IP.nil, none) none),
          wanIPv6 (sampleClient (sampleCfg [recA] true false) ip9 IP.nil)
            (sampleWorld (IP.nil, some "timeout") (IP.nil, none) none))
      ∧ providerCalls (Run dotted (sampleClient (sampleCfg [recA] true false) ip9 IP.nil)
          (sampleWorld (IP.nil, some "timeout") (IP.nil, none) none)).2 = [])
    ∧ ((sampleClient (sampleCfg [] true false) IP.nil IP.nil).locker = 0
      ∧ (IP.nil, IP.nil) ≠ (wanIPv4 (sampleClient (sampleCfg [] true false) IP.nil IP.nil)
            (sampleWorld (ip9, none) (IP.nil, none) none),
          wanIPv6 (sampleClient (sampleCfg [] true false) IP.nil IP.nil)
            (sampleWorld (ip9, none) (IP.nil, none) none))
      ∧ providerCalls (Run dotted (sampleClient (sampleCfg [] true false) IP.nil IP.nil)
          (sampleWorld (ip9, none) (IP.nil, none) none)).2 = [])
    ∧ ((sampleClient (sampleCfg [recA] true false) ip9 IP.nil).locker = 0
      ∧ (ip9, IP.nil) ≠ (wanIPv4 (sampleClient (sampleCfg [recA] true false) ip9 IP.nil)
            (sampleWorld (ip9long, none) (IP.nil, none) none),
          wanIPv6 (sampleClient (sampleCfg [recA] true false) ip9 IP.nil)
            (sampleWorld (ip9long, none) (IP.nil, none) none))
      ∧ providerCalls (Run dotted (sampleClient (sampleCfg [recA] true false) ip9 IP.nil)
          (sampleWorld (ip9long, none) (IP.nil, none) none)).2 = []) := by
  refine ⟨⟨rfl, by decide, by decide⟩, ⟨rfl, by decide, by decide⟩, ⟨rfl, by decide, by decide⟩⟩

/-- C5: a `Run` that reaches the provider submission leaves, as last applied
pair, the pair it resolved, whatever the provider answered (`w.r53err` is
not constrained). -/
theorem run_submission_advances_last (str : IP → String) (c : Client) (w : World)
    (hsub : providerCalls (Run str c w).2 ≠ []) :
    (Run str c w).1.lastIPv4 = wanIPv4 c w ∧ (Run str c w).1.lastIPv6 = wanIPv6 c w := by
  rw [Run_submits_fst str c w hsub]
  exact ⟨rfl, rfl⟩

/-- Witness of C5: one submission the provider accepts and one it rejects. -/
theorem run_submission_advances_last_witness :
    ((Run dotted (sampleClient (sampleCfg [recA] true false) IP.nil IP.nil)
        (sampleWorld (ip9, none) (IP.nil, none) none)).1.lastIPv4 = ip9
      ∧ (Run dotted (sampleClient (sampleCfg [recA] true false) IP.nil IP.nil)
        (sampleWorld (ip9, none) (IP.nil, none) none)).1.lastIPv6 = IP.nil)
    ∧ ((Run dotted (sampleClient (sampleCfg [recA] true false) IP.nil IP.nil)
        (sampleWorld (ip9, none) (IP.nil, none) (some "AccessDenied"))).1.lastIPv4 = ip9
      ∧ (Run dotted (sampleClient (sampleCfg [recA] true false) IP.nil IP.nil)
        (sampleWorld (ip9, none) (IP.nil, none) (some "AccessDenied"))).1.lastIPv6 = IP.nil) :=
  ⟨run_submission_advances_last dotted
      (sampleClient (sampleCfg [recA] true false) IP.nil IP.nil)
      (sampleWorld (ip9, none) (IP.nil, none) none) (by decide),
   run_submission_advances_last dotted
      (sampleClient (sampleCfg [recA] true false) IP.nil IP.nil)
      (sampleWorld (ip9, none) (IP.nil, none) (some "AccessDenied")) (by decide)⟩

/-- C6: invoked with the busy flag set, `Run` only logs and returns: the
client (last applied pair and busy flag included) is unchanged, and the trace
holds no resolver call and no provider call. -/
theorem run_busy_drops_tick (str : IP → String) (c : Client) (w : World)
    (hbusy : c.locker ≠ 0) :
    Run str c w = (c, [Event.log Level.warn "Already running"])
      ∧ resolverCalls (Run str c w).2 = []
      ∧ providerCalls (Run str c w).2 = [] := by
  rw [Run_busy str c w hbusy]
  exact ⟨rfl, rfl, rfl⟩

/-- Witness of C6: a busy client whose resolver would answer a new address. -/
theorem run_busy_drops_tick_witness :
    Run dotted { sampleClient (sampleCfg [recA] true true) IP.nil IP.nil with locker := 1 }
        (sampleWorld (ip9, none) (IP.nil, none) none)
      = ({ sampleClient (sampleCfg [recA] true true) IP.nil IP.nil with locker := 1 },
          [Event.log Level.warn "Already running"])
      ∧ resolverCalls (Run dotted
          { sampleClient (sampleCfg [recA] true true) IP.nil IP.nil with locker := 1 }
          (sampleWorld (ip9, none) (IP.nil, none) none)).2 = []
      ∧ providerCalls (Run dotted
          { sampleClient (sampleCfg [recA] true true) IP.nil IP.nil with locker := 1 }
          (sampleWorld (ip9, none) (IP.nil, none) none)).2 = [] :=
  run_busy_drops_tick dotted
    { sampleClient (sampleCfg [recA] true true) IP.nil IP.nil with locker := 1 }
    (sampleWorld (ip9, none) (IP.nil, none) none) (by decide)

theorem runAll_locker (str : IP → String) (ws : List World) :
    ∀ c : Client, c.locker = 0 → (runAll str c ws).locker = 0 := by
  induction ws with
  | nil => intro c h; exact h
  | cons w ws ih => intro c h; exact ih _ (Run_locker str c w h)

/-- C10: a `Run` entered with the busy flag clear returns with it clear,
whatever the resolvers and the provider answer (so on every exit path); hence
after any sequence of invocations one after the other the flag is clear, and
the next one finds it so. -/
theorem run_releases_guard (str : IP → String) (c : Client) (w : World)
    (hfree : c.locker = 0) :
    (Run str c w).1.locker = 0 ∧ ∀ ws : List World, (runAll str c ws).locker = 0 :=
  ⟨Run_locker str c w hfree, fun ws => runAll_locker str ws c hfree⟩

/-- Witness of C10: a cycle whose provider call fails. -/
theorem run_releases_guard_witness :
    (Run dotted (sampleClient (sampleCfg [recA] true false) IP.nil IP.nil)
        (sampleWorld (ip9, none) (IP.nil, none) (some "AccessDenied"))).1.locker = 0
      ∧ ∀ ws : List World,
        (runAll dotted (sampleClient (sampleCfg [recA] true false) IP.nil IP.nil) ws).locker = 0 :=
  run_releases_guard dotted (sampleClient (sampleCfg [recA] true false) IP.nil IP.nil)
    (sampleWorld (ip9, none) (IP.nil, none) (some "AccessDenied")) rfl

/-! ## The slice handed to the provider -/

/-- C3, the code at a failing input: records `A` and `AAAA`, IPv4 resolved to
203.0.113.9, IPv6 not handled.  One record has its family present, yet the
submitted slice has two slots: the change of the `A` record and a nil
pointer where the `AAAA` record was skipped. -/
theorem run_submits_nil_slot :
    providerCalls (Run dotted (sampleClient (sampleCfg [recA, recAAAA] true false) IP.nil IP.nil)
      (sampleWorld (ip9, none) (IP.nil, none) none)).2
      = [Event.ChangeResourceRecordSets "Z1"
          (batchComment (sampleClient (sampleCfg [recA, recAAAA] true false) IP.nil IP.nil)
            (sampleWorld (ip9, none) (IP.nil, none) none))
          [some { Action := "UPSERT", Name := "a.example.com", RRType := "A", TTL := 300,
                  Value := dotted ip9 },
           none]] := by
  rw [providerCalls_Run _ _ _ rfl]
  rfl

/-- C4, the code at a failing input: the only record is `AAAA`, IPv6 is not
handled, IPv4 resolves to 203.0.113.9.  The slice is one nil pointer, its
length is 1, the test of line 162 does not fire, and the provider is called
with a batch that holds no change. -/
theorem run_submits_only_nil :
    providerCalls (Run dotted (sampleClient (sampleCfg [recAAAA] true false) IP.nil IP.nil)
      (sampleWorld (ip9, none) (IP.nil, none) none)).2
      = [Event.ChangeResourceRecordSets "Z1"
          (batchComment (sampleClient (sampleCfg [recAAAA] true false) IP.nil IP.nil)
            (sampleWorld (ip9, none) (IP.nil, none) none))
          [none]] := by
  rw [providerCalls_Run _ _ _ rfl]
  rfl

/-! ## Resolver calls -/

theorem resolverCalls_nil : resolverCalls [] = [] := rfl

theorem resolverCalls_log (l : Level) (m : String) :
    resolverCalls [Event.log l m] = [] := rfl

theorem resolverCalls_submit (z cm : String) (ch : List (Option Change)) :
    resolverCalls [Event.ChangeResourceRecordSets z cm ch] = [] := rfl

theorem resolveIPv4_resolver (str : IP → String) (c : Client) (w : World) :
    resolverCalls (resolveIPv4 str c w) = if c.cfg.HandleIPv4 then [Event.IPv4] else [] := by
  unfold resolveIPv4 resolverCalls
  split_ifs
  · cases w.ipv4.2 <;> simp [Event.isResolver]
  · rfl

theorem resolveIPv6_resolver (str : IP → String) (c : Client) (w : World) :
    resolverCalls (resolveIPv6 str c w) = if c.cfg.HandleIPv6 then [Event.IPv6] else [] := by
  unfold resolveIPv6 resolverCalls
  split_ifs
  · cases w.ipv6.2 <;> simp [Event.isResolver]
  · rfl

/-- The resolver calls of the body of `Run`: each family at most once, in
the order IPv4, IPv6, and only when its flag is set. -/
theorem resolverCalls_cycle (str : IP → String) (c : Client) (w : World) :
    resolverCalls (cycle str c w).2 =
      (if c.cfg.HandleIPv4 then [Event.IPv4] else [])
        ++ (if c.cfg.HandleIPv6 then [Event.IPv6] else []) := by
  unfold cycle
  simp only [buildChanges_length, List.length_eq_zero]
  cases w.r53err <;>
  split_ifs <;>
  simp only [resolverCalls_append, resolveIPv4_resolver, resolveIPv6_resolver,
    buildChanges_resolver, resolverCalls_log, resolverCalls_submit,
    resolverCalls_nil, List.nil_append, List.append_nil, if_true, if_false,
    List.singleton_append] <;>
  simp_all

theorem resolverCalls_Run (str : IP → String) (c : Client) (w : World) (h : c.locker = 0) :
    resolverCalls (Run str c w).2 =
      (if c.cfg.HandleIPv4 then [Event.IPv4] else [])
        ++ (if c.cfg.HandleIPv6 then [Event.IPv6] else []) := by
  have hc := resolverCalls_cycle str { c with locker := 1 } w
  rw [Run_free str c w h]
  simp only [resolverCalls_append, nextRunLog_resolver, List.append_nil]
  exact hc

theorem mem_resolverCalls (e : Event) (tr : List Event) (he : e.isResolver = true) :
    e ∈ tr → e ∈ resolverCalls tr := by
  intro h
  exact List.mem_filter.mpr ⟨h, he⟩

/-- C8: when both resolved addresses are nil at line 126, `Run` makes no
provider call and leaves the last applied pair as it was; the IPv4 resolver
is called only when `HandleIPv4` is set and the IPv6 resolver only when
`HandleIPv6` is set; with both flags off `Run` makes no resolver call and no
provider call. -/
theorem run_nothing_resolved (str : IP → String) (c : Client) (w : World) :
    (wanIPv4 c w = IP.nil → wanIPv6 c w = IP.nil →
        providerCalls (Run str c w).2 = []
          ∧ (Run str c w).1.lastIPv4 = c.lastIPv4
          ∧ (Run str c w).1.lastIPv6 = c.lastIPv6)
      ∧ (Event.IPv4 ∈ (Run str c w).2 → c.cfg.HandleIPv4 = true)
      ∧ (Event.IPv6 ∈ (Run str c w).2 → c.cfg.HandleIPv6 = true)
      ∧ (c.cfg.HandleIPv4 = false → c.cfg.HandleIPv6 = false →
          resolverCalls (Run str c w).2 = [] ∧ providerCalls (Run str c w).2 = []) := by
  by_cases hfree : c.locker = 0
  · refine ⟨?_, ?_, ?_, ?_⟩
    · intro h4 h6
      rw [providerCalls_Run str c w hfree, Run_fst str c w hfree,
        if_pos (And.intro h4 h6), if_pos (And.intro h4 h6)]
      exact ⟨rfl, rfl, rfl⟩
    · intro hm
      have hr := mem_resolverCalls Event.IPv4 _ rfl hm
      rw [resolverCalls_Run str c w hfree] at hr
      by_contra hf
      cases h6 : c.cfg.HandleIPv6 <;> simp [hf, h6] at hr
    · intro hm
      have hr := mem_resolverCalls Event.IPv6 _ rfl hm
      rw [resolverCalls_Run str c w hfree] at hr
      by_contra hf
      cases h4 : c.cfg.HandleIPv4 <;> simp [hf, h4] at hr
    · intro h4 h6
      have hw4 : wanIPv4 c w = IP.nil := by simp [wanIPv4, h4]
      have hw6 : wanIPv6 c w = IP.nil := by simp [wanIPv6, h6]
      rw [resolverCalls_Run str c w hfree, providerCalls_Run str c w hfree,
        if_pos (And.intro hw4 hw6)]
      simp [h4, h6]
  · rw [Run_busy str c w hfree]
    refine ⟨fun _ _ => ⟨rfl, rfl, rfl⟩, ?_, ?_, fun _ _ => ⟨rfl, rfl⟩⟩
    · intro hm; simp at hm
    · intro hm; simp at hm

/-- Witness of C8: both families handled and both resolutions failing (the
last applied pair 203.0.113.9 stays); both families off; and a run that did
call the IPv4 resolver. -/
theorem run_nothing_resolved_witness :
    (providerCalls (Run dotted (sampleClient (sampleCfg [recA] true true) ip9 IP.nil)
        (sampleWorld (IP.nil, some "timeout") (IP.nil, some "timeout") none)).2 = []
      ∧ (Run dotted (sampleClient (sampleCfg [recA] true true) ip9 IP.nil)
        (sampleWorld (IP.nil, some "timeout") (IP.nil, some "timeout") none)).1.lastIPv4 = ip9
      ∧ (Run dotted (sampleClient (sampleCfg [recA] true true) ip9 IP.nil)
        (sampleWorld (IP.nil, some "timeout") (IP.nil, some "timeout") none)).1.lastIPv6
          = IP.nil)
    ∧ (resolverCalls (Run dotted (sampleClient (sampleCfg [recA] false false) ip9 IP.nil)
        (sampleWorld (ip10, none) (IP.nil, none) none)).2 = []
      ∧ providerCalls (Run dotted (sampleClient (sampleCfg [recA] false false) ip9 IP.nil)
        (sampleWorld (ip10, none) (IP.nil, none) none)).2 = [])
    ∧ (sampleClient (sampleCfg [recA] true false) IP.nil IP.nil).cfg.HandleIPv4 = true :=
  ⟨(run_nothing_resolved dotted (sampleClient (sampleCfg [recA] true true) ip9 IP.nil)
      (sampleWorld (IP.nil, some "timeout") (IP.nil, some "timeout") none)).1
      (by decide) (by decide),
   (run_nothing_resolved dotted (sampleClient (sampleCfg [recA] false false) ip9 IP.nil)
      (sampleWorld (ip10, none) (IP.nil, none) none)).2.2.2 rfl rfl,
   (run_nothing_resolved dotted (sampleClient (sampleCfg [recA] true false) IP.nil IP.nil)
      (sampleWorld (ip9, none) (IP.nil, none) none)).2.1 (by decide)⟩

/-! ## `Start` -/

/-- C9: the trace of `Start` begins with one `Run` of the client as it was
handed in (whatever the schedule string) and holds no other `Run`; with an
empty schedule the trace is that `Run` alone (no job is registered) and
`Start` returns nil; when `AddJob` fails on a schedule that is not empty,
`Start` returns that error and the trace ends with the `AddJob` call, the
scheduler not being started. -/
theorem start_runs_once (str : IP → String) (c : Client) (w : World) (cw : CronWorld) :
    (Start str c w cw).trace.head? = some (StartEvent.Run (Run str c w).2)
      ∧ (Start str c w cw).trace.tail.filter StartEvent.isRun = []
      ∧ (c.cfg.Schedule = "" →
          (Start str c w cw).trace = [StartEvent.Run (Run str c w).2]
            ∧ (Start str c w cw).outcome = Outcome.returned none)
      ∧ (∀ e, c.cfg.Schedule ≠ "" → cw.addJob.2 = some e →
          (Start str c w cw).outcome = Outcome.returned (some e)
            ∧ (Start str c w cw).trace
                = [StartEvent.Run (Run str c w).2, StartEvent.AddJob c.cfg.Schedule]
            ∧ StartEvent.CronStart ∉ (Start str c w cw).trace) := by
  unfold Start
  by_cases hs : c.cfg.Schedule = ""
  · simp [hs]
  · cases he : cw.addJob.2 with
    | some e => simp [hs, he, StartEvent.isRun]
    | none => simp [hs, he, StartEvent.isRun]

/-- Witness of C9: a client with no schedule, and one whose schedule the
cron library rejects. -/
theorem start_runs_once_witness :
    ((Start dotted (sampleClient (sampleCfg [recA] true false) IP.nil IP.nil)
          (sampleWorld (ip9, none) (IP.nil, none) none)
          { addJob := (1, none), nextIn := "", nextAt := "" }).trace
        = [StartEvent.Run (Run dotted (sampleClient (sampleCfg [recA] true false) IP.nil IP.nil)
            (sampleWorld (ip9, none) (IP.nil, none) none)).2]
      ∧ (Start dotted (sampleClient (sampleCfg [recA] true false) IP.nil IP.nil)
          (sampleWorld (ip9, none) (IP.nil, none) none)
          { addJob := (1, none), nextIn := "", nextAt := "" }).outcome
        = Outcome.returned none)
    ∧ (Start dotted
          (sampleClient { sampleCfg [recA] true false with Schedule := "every day" }
            IP.nil IP.nil)
          (sampleWorld (ip9, none) (IP.nil, none) none)
          { addJob := (0, some "expected 5 to 6 fields"), nextIn := "", nextAt := "" }).outcome
        = Outcome.returned (some "expected 5 to 6 fields") :=
  ⟨(start_runs_once dotted (sampleClient (sampleCfg [recA] true false) IP.nil IP.nil)
      (sampleWorld (ip9, none) (IP.nil, none) none)
      { addJob := (1, none), nextIn := "", nextAt := "" }).2.2.1 rfl,
   ((start_runs_once dotted
      (sampleClient { sampleCfg [recA] true false with Schedule := "every day" } IP.nil IP.nil)
      (sampleWorld (ip9, none) (IP.nil, none) none)
      { addJob := (0, some "expected 5 to 6 fields"), nextIn := "", nextAt := "" }).2.2.2
      "expected 5 to 6 fields" (by decide) rfl).1⟩

/-! ## The busy guard under interleaving -/

theorem init_inv (clientOf : Nat → Nat) : GuardInv clientOf Sys.init := by
  constructor
  · intro i hi; simp [Sys.init] at hi
  · intro i j hi; simp [Sys.init] at hi

theorem step_inv (clientOf : Nat → Nat) (s : Sys) (i : Nat) (h : GuardInv clientOf s) :
    GuardInv clientOf (step clientOf s i) := by
  obtain ⟨h1, h2⟩ := h
  unfold step
  cases hp : s.pc i with
  | waiting =>
    by_cases hl : s.locker (clientOf i) = 0
    · simp only [if_pos hl]
      constructor
      · intro j hj
        by_cases hji : j = i
        · subst hji; simp
        · simp only [Function.update_noteq hji] at hj
          have h1j := h1 j hj
          have hne : clientOf j ≠ clientOf i := by
            intro e; rw [e, hl] at h1j; exact absurd h1j (by decide)
          simp only [Function.update_noteq hne]
          exact h1j
      · intro j k hj hk hc
        by_cases hji : j = i
        · by_cases hki : k = i
          · rw [hji, hki]
          · simp only [Function.update_noteq hki] at hk
            have h1k := h1 k hk
            rw [← hc, hji, hl] at h1k
            exact absurd h1k (by decide)
        · simp only [Function.update_noteq hji] at hj
          by_cases hki : k = i
          · have h1j := h1 j hj
            rw [hc, hki, hl] at h1j
            exact absurd h1j (by decide)
          · simp only [Function.update_noteq hki] at hk
            exact h2 j k hj hk hc
    · simp only [if_neg hl]
      constructor
      · intro j hj
        by_cases hji : j = i
        · subst hji; simp at hj
        · simp only [Function.update_noteq hji] at hj
          exact h1 j hj
      · intro j k hj hk hc
        by_cases hji : j = i
        · subst hji; simp at hj
        · by_cases hki : k = i
          · subst hki; simp at hk
          · simp only [Function.update_noteq hji] at hj
            simp only [Function.update_noteq hki] at hk
            exact h2 j k hj hk hc
  | inside =>
    simp only
    constructor
    · intro j hj
      by_cases hji : j = i
      · subst hji; simp at hj
      · simp only [Function.update_noteq hji] at hj
        have hne : clientOf j ≠ clientOf i := by
          intro e
          exact hji (h2 j i hj hp e)
        simp only [Function.update_noteq hne]
        exact h1 j hj
    · intro j k hj hk hc
      by_cases hji : j = i
      · subst hji; simp at hj
      · by_cases hki : k = i
        · subst hki; simp at hk
        · simp only [Function.update_noteq hji] at hj
          simp only [Function.update_noteq hki] at hk
          exact h2 j k hj hk hc
  | done => exact ⟨h1, h2⟩

theorem exec_inv (clientOf : Nat → Nat) (sched : List Nat) :
    ∀ s : Sys, GuardInv clientOf s → GuardInv clientOf (exec clientOf s sched) := by
  induction sched with
  | nil => intro s h; exact h
  | cons i sched ih =>
    intro s h
    exact ih _ (step_inv clientOf s i h)

/-- C7, as amended: in every interleaving of invocations of `Run`, started
from freshly constructed clients, two distinct invocations on the same
`Client` instance are never both past its busy guard. -/
theorem guard_excludes_per_client (clientOf : Nat → Nat) (sched : List Nat) (i j : Nat)
    (hij : i ≠ j) (hc : clientOf i = clientOf j) :
    ¬ ((exec clientOf Sys.init sched).pc i = Pc.inside
        ∧ (exec clientOf Sys.init sched).pc j = Pc.inside) := by
  intro h
  exact hij ((exec_inv clientOf sched Sys.init (init_inv clientOf)).2 i j h.1 h.2 hc)

/-- Witness of C7 as amended: two invocations on one client, both scheduled;
the second finds the guard taken and returns. -/
theorem guard_excludes_per_client_witness :
    ¬ ((exec (fun _ => 0) Sys.init [0, 1]).pc 0 = Pc.inside
        ∧ (exec (fun _ => 0) Sys.init [0, 1]).pc 1 = Pc.inside) :=
  guard_excludes_per_client (fun _ => 0) [0, 1] 0 1 (by decide) rfl

/-- Counterexample to C7 as stated: `locker` is a field of `Client`, so two
invocations on two client instances (`clientOf` the identity) are both past
the guard after each has taken its step. -/
theorem guard_not_process_wide :
    (exec (fun i => i) Sys.init [0, 1]).pc 0 = Pc.inside
      ∧ (exec (fun i => i) Sys.init [0, 1]).pc 1 = Pc.inside := by
  constructor <;> decide

end DdnsRoute53
